import Mathlib

/-!
Verification of the `chilog` Go middleware (`chilog.go`).

Shallow embedding: the single wrapping function `Middleware` is modelled as the
pure function `runMiddleware` over explicit request/response-writer states.
External collaborators are modelled by their documented behaviour at the call
sites the middleware uses:
  * `net/http` response writer: first `WriteHeader` wins, a body `Write`
    implicitly sends status 200 first;
  * chi `middleware.NewWrapResponseWriter` (basicWriter): records the first
    status code written through it, `Status()` is 0 if the handler never wrote;
  * `uuid.New().String()` and `debug.Stack()` are nondeterministic inputs,
    passed as parameters (`genId`, `stack`);
  * wall-clock elapsed time is the parameter `elapsedNs` (nanoseconds);
  * `encoding/json`: `Unmarshal` into `map[string]interface{}` succeeds exactly
    when the bytes are one valid JSON value whose top level is an object (or
    `null`), and `Compact` strips insignificant whitespace outside strings.
Bytes are modelled as `List Char`; zerolog emission is modelled by the list of
request-trace records the run produces.
-/

/-- Log severity levels used by the middleware (zerolog levels). -/
inductive Level where
  | info
  | warn
  | error
deriving DecidableEq, Repr

abbrev Headers := List (String × String)

/-- `r.Header.Get(k)`: empty string when the header is absent. -/
def headerGet (hs : Headers) (k : String) : String :=
  match hs.lookup k with
  | some v => v
  | none => ""

/-- `r.Header.Set(k, v)`: replaces any existing value for `k`. -/
def headerSet (hs : Headers) (k v : String) : Headers :=
  (k, v) :: hs.filter (fun p => p.1 ≠ k)

/-- The incoming `*http.Request` as the middleware sees it.
`body = none` models `r.Body == nil`; `some bs` models a readable stream
whose full content is `bs`. -/
structure Request where
  headers : Headers
  remoteAddr : String
  host : String
  method : String
  path : String
  body : Option (List Char)
deriving DecidableEq, Repr

/-- The server's underlying `http.ResponseWriter`: the first
`WriteHeader` call fixes the status sent to the client, later calls are
superfluous and ignored; a body write with no status yet sends 200. -/
structure RespWriter where
  status : Option Nat
  bodyOut : List Char
deriving DecidableEq, Repr

def RespWriter.writeHeader (w : RespWriter) (code : Nat) : RespWriter :=
  if w.status.isSome then w else { w with status := some code }

def RespWriter.write (w : RespWriter) (data : List Char) : RespWriter :=
  let w1 := if w.status.isSome then w else { w with status := some 200 }
  { w1 with bodyOut := w1.bodyOut ++ data }

/-- chi's `basicWriter` (`middleware.NewWrapResponseWriter`): proxies to the
underlying writer and records the first status code written through it. -/
structure WrapWriter where
  underlying : RespWriter
  code : Nat
  wroteHeader : Bool
deriving DecidableEq, Repr

/-- `basicWriter.WriteHeader`: records and forwards only the first call. -/
def WrapWriter.writeHeader (b : WrapWriter) (code : Nat) : WrapWriter :=
  if b.wroteHeader then b
  else { underlying := b.underlying.writeHeader code, code := code, wroteHeader := true }

/-- `basicWriter.Write`: `maybeWriteHeader` (implicit 200) then forward. -/
def WrapWriter.write (b : WrapWriter) (data : List Char) : WrapWriter :=
  let b1 := if b.wroteHeader then b else b.writeHeader 200
  { b1 with underlying := b1.underlying.write data }

/-- `basicWriter.Status()`. -/
def WrapWriter.status (b : WrapWriter) : Nat := b.code

/-- One observable step the wrapped handler performs on its response writer. -/
inductive HAction where
  | writeHeader (code : Nat)
  | write (data : List Char)
deriving DecidableEq, Repr

/-- Values a handler can panic with.  `abortHandler` is the sentinel
`http.ErrAbortHandler`; `errVal m` is a value implementing `error` whose
`Error()` is `m`; `otherVal s` is a non-error value whose `fmt` rendering
(`%v`) is `s`. -/
inductive PanicVal where
  | abortHandler
  | errVal (msg : String)
  | otherVal (repr : String)
deriving DecidableEq, Repr

/-- The error the deferred recovery derives from a panic value:
`err, ok := rvr.(error); if !ok { err = fmt.Errorf("%v", rvr) }`. -/
def panicErrMsg : PanicVal → String
  | .abortHandler => "net/http: abort Handler"
  | .errVal m => m
  | .otherVal s => s

/-- A wrapped handler, abstracted to what the middleware can observe: the
response-writer calls it makes, whether it reads the request body, and how it
exits (normal return or a panic value). -/
structure Handler where
  actions : List HAction
  readsBody : Bool
  panics : Option PanicVal
deriving DecidableEq, Repr

/-- Handler running against the raw writer (the filtered path). -/
def applyPlain (w : RespWriter) : HAction → RespWriter
  | .writeHeader c => w.writeHeader c
  | .write d => w.write d

def runPlain (w : RespWriter) (as : List HAction) : RespWriter :=
  as.foldl applyPlain w

/-- Handler running against the chi wrapper (the logged path). -/
def applyWrap (b : WrapWriter) : HAction → WrapWriter
  | .writeHeader c => b.writeHeader c
  | .write d => b.write d

def runWrap (b : WrapWriter) (as : List HAction) : WrapWriter :=
  as.foldl applyWrap b

/-- The status the chi wrapper reports after a fresh run of `as`:
the code of the first writer call (explicit code, or the implicit 200 of a
body write), and 0 when the handler never touched the writer. -/
def firstStatus : List HAction → Nat
  | [] => 0
  | .writeHeader c :: _ => c
  | .write _ :: _ => 200

/- ---------------------------------------------------------------------
JSON: the fragment of `encoding/json` the middleware uses in
`formatReqBody`: validity scanning (for `Unmarshal` into a map) and
whitespace compaction (`Compact`).
--------------------------------------------------------------------- -/

def isWs (c : Char) : Bool :=
  c = ' ' || c = '\t' || c = '\n' || c = '\r'

def skipWs : List Char → List Char
  | [] => []
  | c :: cs => if isWs c then skipWs cs else c :: cs

def isHexDigit (c : Char) : Bool :=
  c.isDigit || ('a' ≤ c && c ≤ 'f') || ('A' ≤ c && c ≤ 'F')

/-- Scan a JSON string body (after the opening quote); returns the rest
after the closing quote. -/
def scanStringBody : List Char → Option (List Char)
  | [] => none
  | '"' :: cs => some cs
  | '\\' :: e :: cs =>
    if e = '"' || e = '\\' || e = '/' || e = 'b' || e = 'f' || e = 'n' || e = 'r' || e = 't' then
      scanStringBody cs
    else if e = 'u' then
      match cs with
      | a :: b :: c :: d :: rest =>
        if isHexDigit a && isHexDigit b && isHexDigit c && isHexDigit d then
          scanStringBody rest
        else none
      | _ => none
    else none
  | c :: cs => if c.toNat ≥ 32 then scanStringBody cs else none

def dropDigits : List Char → List Char
  | [] => []
  | c :: cs => if c.isDigit then dropDigits cs else c :: cs

/-- Scan an optional exponent part of a JSON number. -/
def scanExp : List Char → Option (List Char)
  | [] => some []
  | c :: t =>
    if c = 'e' || c = 'E' then
      let t1 := match t with
        | s :: t2 => if s = '+' || s = '-' then t2 else s :: t2
        | [] => []
      match t1 with
      | d :: t2 => if d.isDigit then some (dropDigits t2) else none
      | [] => none
    else some (c :: t)

/-- Scan an optional fraction part of a JSON number, then the exponent. -/
def scanFrac : List Char → Option (List Char)
  | '.' :: t =>
    (match t with
     | d :: t2 => if d.isDigit then scanExp (dropDigits t2) else none
     | [] => none)
  | s => scanExp s

/-- Scan a JSON number (strict grammar: no leading zeros, as in Go). -/
def scanNumber (s : List Char) : Option (List Char) :=
  let s1 := match s with
    | '-' :: t => t
    | _ => s
  match s1 with
  | '0' :: t => scanFrac t
  | c :: t => if c.isDigit then scanFrac (dropDigits t) else none
  | [] => none

/-- Scanner modes: one value, object members, or array elements. -/
inductive JMode where
  | value
  | members
  | elements
deriving DecidableEq, Repr

/-- Fueled scanner for the JSON grammar `encoding/json`'s scanner accepts:
one value / object members (`string ':' value (',' members | '\x7d')`) /
array elements (`value (',' elements | ']')`).  Expects leading whitespace
already skipped; returns the unconsumed rest on success. -/
def scanJson : Nat → JMode → List Char → Option (List Char)
  | 0, _, _ => none
  | Nat.succ fuel, .value, s =>
    (match s with
     | '{' :: cs =>
       (match skipWs cs with
        | '}' :: rest => some rest
        | cs1 => scanJson fuel .members cs1)
     | '[' :: cs =>
       (match skipWs cs with
        | ']' :: rest => some rest
        | cs1 => scanJson fuel .elements cs1)
     | '"' :: cs => scanStringBody cs
     | 't' :: 'r' :: 'u' :: 'e' :: rest => some rest
     | 'f' :: 'a' :: 'l' :: 's' :: 'e' :: rest => some rest
     | 'n' :: 'u' :: 'l' :: 'l' :: rest => some rest
     | s' => scanNumber s')
  | Nat.succ fuel, .members, s =>
    (match s with
     | '"' :: cs =>
       (match scanStringBody cs with
        | none => none
        | some r1 =>
          (match skipWs r1 with
           | ':' :: r2 =>
             (match scanJson fuel .value (skipWs r2) with
              | none => none
              | some r3 =>
                (match skipWs r3 with
                 | ',' :: r4 => scanJson fuel .members (skipWs r4)
                 | '}' :: r5 => some r5
                 | _ => none))
           | _ => none))
     | _ => none)
  | Nat.succ fuel, .elements, s =>
    (match scanJson fuel .value s with
     | none => none
     | some r1 =>
       (match skipWs r1 with
        | ',' :: r2 => scanJson fuel .elements (skipWs r2)
        | ']' :: r3 => some r3
        | _ => none))

/-- `data` is one complete valid JSON value (what `json.Valid` /
`checkValid` accepts: a value, possibly surrounded by whitespace). -/
def validJsonValue (data : List Char) : Bool :=
  match scanJson (data.length + 1) .value (skipWs data) with
  | some rest => skipWs rest = []
  | none => false

/-- `json.Unmarshal(data, &js)` with `js : map[string]interface.` succeeds
iff the bytes are one valid JSON value whose top-level token is an object
(or the literal `null`, which leaves the map nil). -/
def unmarshalMapOk (data : List Char) : Bool :=
  validJsonValue data &&
    (match skipWs data with
     | '{' :: _ => true
     | 'n' :: _ => true
     | _ => false)

/-- Whitespace removal outside strings, the effect of `json.Compact` on
valid input (state: inside-string, just-after-backslash). -/
def stripWsAux : Bool → Bool → List Char → List Char
  | _, _, [] => []
  | true, true, c :: cs => c :: stripWsAux true false cs
  | true, false, c :: cs =>
    if c = '\\' then c :: stripWsAux true true cs
    else if c = '"' then c :: stripWsAux false false cs
    else c :: stripWsAux true false cs
  | false, _, c :: cs =>
    if c = '"' then c :: stripWsAux true false cs
    else if isWs c then stripWsAux false false cs
    else c :: stripWsAux false false cs

/-- `json.Compact(result, data)`: fails exactly when `data` is not one
valid JSON value; otherwise appends `data` with insignificant whitespace
removed. -/
def jsonCompact (data : List Char) : Option (List Char) :=
  if validJsonValue data then some (stripWsAux false false data) else none

/-- `formatReqBody(data)` from `chilog.go`.  Second component: whether the
secondary "error compacting body request json" record was emitted (the
compaction-failure branch). -/
def formatReqBody (data : List Char) : String × Bool :=
  if unmarshalMapOk data = false then (⟨data⟩, false)
  else
    match jsonCompact data with
    | some res => (⟨res⟩, false)
    | none => ("", true)

/- ---------------------------------------------------------------------
The middleware: `Middleware(filter)(next)` from `chilog.go`, modelled as
one pure run over a request.
--------------------------------------------------------------------- -/

/-- The process-wide header-name variable, default value. -/
def RequestIDHeader : String := "X-Request-Id"

/-- The `logFields` struct of `chilog.go` (Latency as an exact rational;
the Go code stores a float64 of the same value). -/
structure logFields where
  RemoteIP : String
  Host : String
  Method : String
  Path : String
  Body : String
  StatusCode : Nat
  Latency : ℚ
  Error : Option String
  Stack : Option (List Char)
deriving DecidableEq, Repr

/-- One emitted request-trace record: zerolog level and message chosen by
the final `switch`, the `request_id` bound into the logging context, and
the embedded `logFields`. -/
structure LogRecord where
  level : Level
  message : String
  requestId : String
  fields : logFields
deriving DecidableEq, Repr

/-- The `switch` at the end of the deferred function: level and message
from whether a panic was recovered (`rvr != nil`) and the status code. -/
def classify (rvrSome : Bool) (status : Nat) : Level × String :=
  if rvrSome then (.error, "panic recover")
  else if status ≥ 500 then (.error, "server error")
  else if status ≥ 400 then (.error, "client error")
  else if status ≥ 300 then (.warn, "redirect")
  else if status ≥ 200 then (.info, "success")
  else if status ≥ 100 then (.info, "informative")
  else (.warn, "unknown status")

/-- `float64(time.Since(start).Nanoseconds()/1e4) / 100.0`: integer
division by 10^4, then division by 100. -/
def latencyOf (elapsedNs : Nat) : ℚ :=
  ((elapsedNs / 10000 : Nat) : ℚ) / 100

/-- Everything one run of the wrapped handler produced that the claims
talk about. -/
structure MwOutput where
  /-- final state of the underlying (client-visible) response writer -/
  writer : RespWriter
  /-- the request as the wrapped handler received it -/
  request : Request
  /-- the bytes the handler obtained from `r.Body`, had it read it -/
  handlerBodyRead : Option (List Char)
  /-- request-trace records emitted by this run -/
  records : List LogRecord
  /-- whether the secondary compaction-failure record was emitted -/
  compactFailLogged : Bool
  /-- panic value propagating out of the middleware, if any -/
  propagated : Option PanicVal
deriving DecidableEq, Repr

/-- `if filter != nil && filter(w, r)`. -/
def filterPass (filter : Option (RespWriter → Request → Bool))
    (w : RespWriter) (r : Request) : Bool :=
  match filter with
  | some f => f w r
  | none => false

/-- The filtered path: `next.ServeHTTP(w, r); return` — the handler runs
directly against the raw writer and the untouched request; no recovery,
no record. -/
def filteredRun (handler : Handler) (w : RespWriter) (r : Request) : MwOutput :=
  { writer := runPlain w handler.actions
    request := r
    handlerBodyRead :=
      if handler.readsBody then some ((r.body).getD []) else none
    records := []
    compactFailLogged := false
    propagated := handler.panics }

/-- The deferred function: recover, re-panic on the abort sentinel,
otherwise coerce the panic to an error, capture the stack, force 500 on
the raw writer `w`, then read `ww.Status()`, compute latency and log. -/
def deferRecover (r2 : Request) (ctxId : String) (bodyStr : String)
    (ww1 : WrapWriter) (rvr : Option PanicVal) (elapsedNs : Nat)
    (stack : List Char) : RespWriter × List LogRecord × Option PanicVal :=
  match rvr with
  | some .abortHandler => (ww1.underlying, [], some .abortHandler)
  | _ =>
    let errOpt : Option String := rvr.map panicErrMsg
    let stackOpt : Option (List Char) := rvr.map (fun _ => stack)
    let w2 : RespWriter :=
      if rvr.isSome then ww1.underlying.writeHeader 500 else ww1.underlying
    let status := ww1.status
    let lm := classify rvr.isSome status
    (w2,
     [{ level := lm.1, message := lm.2, requestId := ctxId,
        fields :=
          { RemoteIP := r2.remoteAddr, Host := r2.host, Method := r2.method,
            Path := r2.path, Body := bodyStr, StatusCode := status,
            Latency := latencyOf elapsedNs, Error := errOpt,
            Stack := stackOpt } }],
     none)

/-- The non-filtered path of the handler returned by
`Middleware(filter)(next)`, in source order: resolve/inject the request
id, bind it into the logging context, wrap the writer, snapshot and
restore the body, build `logFields`, run the handler, then the deferred
finalize-and-log step. -/
def fullRun (reqIdHeader : String) (handler : Handler) (genId : String)
    (elapsedNs : Nat) (stack : List Char) (w : RespWriter) (r : Request) :
    MwOutput :=
  -- Generate request ID (reuse a non-empty inbound header value)
  let r1 :=
    if headerGet r.headers reqIdHeader = "" then
      { r with headers := headerSet r.headers reqIdHeader genId }
    else r
  let ctxId := headerGet r1.headers reqIdHeader
  -- Wrap the response writer
  let ww0 : WrapWriter := { underlying := w, code := 0, wroteHeader := false }
  -- Read the request body, restore a fresh reader over the same bytes
  let buf : List Char := (r1.body).getD []
  let r2 : Request :=
    match r1.body with
    | some bs => { r1 with body := some bs }
    | none => r1
  -- Create log fields (body normalized by formatReqBody)
  let bodyFmt := formatReqBody buf
  -- Guarded handler invocation against ww and r2
  let ww1 := runWrap ww0 handler.actions
  let bodySeen :=
    if handler.readsBody then some ((r2.body).getD []) else none
  -- Deferred recovery and finalize-and-log
  let fin := deferRecover r2 ctxId bodyFmt.1 ww1 handler.panics elapsedNs stack
  { writer := fin.1
    request := r2
    handlerBodyRead := bodySeen
    records := fin.2.1
    compactFailLogged := bodyFmt.2
    propagated := fin.2.2 }

/-- One run of the handler `Middleware(filter)(next)` returns, on writer
state `w` and request `r`, with the nondeterministic environment made
explicit: `genId` the value `uuid.New().String()` would produce, `elapsedNs`
the wall-clock nanoseconds `time.Since(start)` measures, `stack` the bytes
`debug.Stack()` returns. -/
def runMiddleware (reqIdHeader : String)
    (filter : Option (RespWriter → Request → Bool)) (handler : Handler)
    (genId : String) (elapsedNs : Nat) (stack : List Char)
    (w : RespWriter) (r : Request) : MwOutput :=
  if filterPass filter w r then filteredRun handler w r
  else fullRun reqIdHeader handler genId elapsedNs stack w r

/- ---------------------------------------------------------------------
Spec-side definitions (refinement targets, worded from the specification)
and concrete fixtures.
--------------------------------------------------------------------- -/

/-- The severity table exactly as the specification states it: panic takes
absolute priority, then the status thresholds 500/400/300/200/100, and any
other status is warn/"unknown status". -/
def specClassify (panicked : Bool) (status : Nat) : Level × String :=
  if panicked then (.error, "panic recover")
  else if 500 ≤ status then (.error, "server error")
  else if 400 ≤ status then (.error, "client error")
  else if 300 ≤ status then (.warn, "redirect")
  else if 200 ≤ status then (.info, "success")
  else if 100 ≤ status then (.info, "informative")
  else (.warn, "unknown status")

/-- Latency as the specification words it: elapsed wall-clock time in
seconds, rounded to two decimal digits (centisecond resolution). -/
def specLatencySeconds (elapsedNs : Nat) : ℚ :=
  ((round ((elapsedNs : ℚ) / 1000000000 * 100) : ℤ) : ℚ) / 100

/-- A fresh server-side response writer (no status sent yet). -/
def sampleWriter : RespWriter := { status := none, bodyOut := [] }

/-- A concrete inbound request with no body and no inbound request id. -/
def sampleRequest : Request :=
  { headers := [], remoteAddr := "203.0.113.7:4242", host := "api.example",
    method := "GET", path := "/ping", body := none }

/-- The bytes of a string literal (for concrete request bodies). -/
def strBytes (s : String) : List Char := s.data

/- ---------------------------------------------------------------------
Helper lemmas about the chi wrapper.
--------------------------------------------------------------------- -/

theorem applyWrap_locked (b : WrapWriter) (a : HAction)
    (h : b.wroteHeader = true) :
    (applyWrap b a).code = b.code ∧ (applyWrap b a).wroteHeader = true := by
  cases a <;> simp [applyWrap, WrapWriter.writeHeader, WrapWriter.write, h]

theorem runWrap_cons (b : WrapWriter) (a : HAction) (as : List HAction) :
    runWrap b (a :: as) = runWrap (applyWrap b a) as := rfl

theorem runWrap_locked (as : List HAction) (b : WrapWriter)
    (h : b.wroteHeader = true) :
    (runWrap b as).code = b.code ∧ (runWrap b as).wroteHeader = true := by
  induction as generalizing b with
  | nil => exact ⟨rfl, h⟩
  | cons a as ih =>
    have hl := applyWrap_locked b a h
    rw [runWrap_cons]
    exact ⟨((ih (applyWrap b a) hl.2).1).trans hl.1, (ih (applyWrap b a) hl.2).2⟩

/-- After a handler run on a fresh wrapper, `ww.Status()` is the code of
the handler's first writer call (0 when it made none). -/
theorem runWrap_fresh_code (w : RespWriter) (as : List HAction) :
    (runWrap { underlying := w, code := 0, wroteHeader := false } as).code
      = firstStatus as := by
  cases as with
  | nil => rfl
  | cons a as =>
    cases a with
    | writeHeader c =>
      rw [runWrap_cons]
      have ha : applyWrap { underlying := w, code := 0, wroteHeader := false }
          (.writeHeader c)
          = { underlying := w.writeHeader c, code := c, wroteHeader := true } := by
        simp [applyWrap, WrapWriter.writeHeader]
      rw [ha]
      exact (runWrap_locked as _ rfl).1
    | write d =>
      rw [runWrap_cons]
      have ha : applyWrap { underlying := w, code := 0, wroteHeader := false }
          (.write d)
          = { underlying := (w.writeHeader 200).write d, code := 200,
              wroteHeader := true } := by
        simp [applyWrap, WrapWriter.write, WrapWriter.writeHeader]
      rw [ha]
      exact (runWrap_locked as _ rfl).1

theorem unmarshalMapOk_valid {data : List Char}
    (h : unmarshalMapOk data = true) : validJsonValue data = true := by
  have := h
  unfold unmarshalMapOk at this
  exact (Bool.and_eq_true_iff.mp this).1

/- ---------------------------------------------------------------------
Claims.
--------------------------------------------------------------------- -/

/-- C1: For every request the middleware processes (filter absent or
returning false), the finalize-and-log step runs exactly once — one
request-trace record and no escaping panic — on every exit path of the
wrapped handler, normal return and recovered panic alike; the sole
exception is a panic with the abort sentinel `http.ErrAbortHandler`,
which is re-raised unchanged and produces no record. -/
theorem mw_finalize_once (reqIdHeader : String)
    (filter : Option (RespWriter → Request → Bool)) (handler : Handler)
    (genId : String) (elapsedNs : Nat) (stack : List Char)
    (w : RespWriter) (r : Request)
    (hf : filterPass filter w r = false) :
    (handler.panics ≠ some .abortHandler →
      (runMiddleware reqIdHeader filter handler genId elapsedNs stack w r).records.length = 1 ∧
      (runMiddleware reqIdHeader filter handler genId elapsedNs stack w r).propagated = none) ∧
    (handler.panics = some .abortHandler →
      (runMiddleware reqIdHeader filter handler genId elapsedNs stack w r).records = [] ∧
      (runMiddleware reqIdHeader filter handler genId elapsedNs stack w r).propagated
        = some .abortHandler) := by
  rcases hp : handler.panics with _ | pv
  · simp [runMiddleware, hf, fullRun, deferRecover, hp]
  · cases pv <;> simp [runMiddleware, hf, fullRun, deferRecover, hp]

/-- Witness for C1 at a concrete normally-returning handler. -/
theorem mw_finalize_once_witness :
    filterPass none sampleWriter sampleRequest = false ∧
    (runMiddleware RequestIDHeader none
      { actions := [.writeHeader 204], readsBody := false, panics := none }
      "gid" 7 ['s'] sampleWriter sampleRequest).records.length = 1 ∧
    (runMiddleware RequestIDHeader none
      { actions := [.writeHeader 204], readsBody := false, panics := none }
      "gid" 7 ['s'] sampleWriter sampleRequest).propagated = none := by
  refine ⟨rfl, ?_⟩
  exact (mw_finalize_once RequestIDHeader none
    { actions := [.writeHeader 204], readsBody := false, panics := none }
    "gid" 7 ['s'] sampleWriter sampleRequest rfl).1 (by decide)

/-- C2 counterexample: a handler that has already written a 200 header and
then panics with a non-abort value.  The deferred `w.WriteHeader(500)` is
superfluous (headers already sent), so the status the client receives is
200, not the 500 the claim asserts unconditionally. -/
theorem mw_panic_500_cex :
    (runMiddleware RequestIDHeader none
      { actions := [.writeHeader 200], readsBody := false,
        panics := some (.errVal "boom") }
      "gid" 7 ['s'] sampleWriter sampleRequest).writer.status = some 200 ∧
    (200 : Nat) ≠ 500 := ⟨rfl, by decide⟩

/-- C2 (amended): for every request whose handler panics with a non-abort
value, the middleware coerces the panic value into an error (string-formatted
if not already an error), captures the stack trace, calls `WriteHeader(500)`
on the raw writer — so the client receives 500 exactly when no header had
been sent yet — and emits exactly one record, at severity error with message
"panic recover", a non-nil error description, and the non-empty stack. -/
theorem mw_panic_recover (reqIdHeader : String)
    (filter : Option (RespWriter → Request → Bool)) (handler : Handler)
    (genId : String) (elapsedNs : Nat) (stack : List Char)
    (w : RespWriter) (r : Request)
    (hf : filterPass filter w r = false)
    (pv : PanicVal) (hp : handler.panics = some pv)
    (hna : pv ≠ .abortHandler) (hs : stack ≠ []) :
    (runMiddleware reqIdHeader filter handler genId elapsedNs stack w r).records.length = 1 ∧
    (∀ logRec ∈ (runMiddleware reqIdHeader filter handler genId elapsedNs stack w r).records,
      logRec.level = .error ∧
      logRec.message = "panic recover" ∧
      logRec.fields.Error = some (panicErrMsg pv) ∧
      logRec.fields.Stack = some stack ∧ stack ≠ []) ∧
    (runMiddleware reqIdHeader filter handler genId elapsedNs stack w r).writer
      = ((runWrap { underlying := w, code := 0, wroteHeader := false }
           handler.actions).underlying).writeHeader 500 ∧
    (handler.actions = [] → w.status = none →
      (runMiddleware reqIdHeader filter handler genId elapsedNs stack w r).writer.status
        = some 500) := by
  cases pv with
  | abortHandler => exact absurd rfl hna
  | errVal m =>
    refine ⟨?_, ?_, ?_, ?_⟩ <;>
      simp [runMiddleware, hf, fullRun, deferRecover, hp, classify, panicErrMsg, hs]
    intro ha hw
    simp [ha, runWrap, RespWriter.writeHeader, hw]
  | otherVal s =>
    refine ⟨?_, ?_, ?_, ?_⟩ <;>
      simp [runMiddleware, hf, fullRun, deferRecover, hp, classify, panicErrMsg, hs]
    intro ha hw
    simp [ha, runWrap, RespWriter.writeHeader, hw]

/-- Witness for C2 (amended) at a concrete panicking handler. -/
theorem mw_panic_recover_witness :
    (['s'] : List Char) ≠ [] ∧
    (runMiddleware RequestIDHeader none
      { actions := [], readsBody := false, panics := some (.errVal "boom") }
      "gid" 7 ['s'] sampleWriter sampleRequest).records.length = 1 ∧
    (∀ logRec ∈ (runMiddleware RequestIDHeader none
        { actions := [], readsBody := false, panics := some (.errVal "boom") }
        "gid" 7 ['s'] sampleWriter sampleRequest).records,
      logRec.level = .error ∧
      logRec.message = "panic recover" ∧
      logRec.fields.Error = some (panicErrMsg (.errVal "boom")) ∧
      logRec.fields.Stack = some ['s'] ∧ (['s'] : List Char) ≠ []) ∧
    (runMiddleware RequestIDHeader none
      { actions := [], readsBody := false, panics := some (.errVal "boom") }
      "gid" 7 ['s'] sampleWriter sampleRequest).writer.status = some 500 := by
  have h := mw_panic_recover RequestIDHeader none
    { actions := [], readsBody := false, panics := some (.errVal "boom") }
    "gid" 7 ['s'] sampleWriter sampleRequest rfl (.errVal "boom") rfl
    (by decide) (by decide)
  exact ⟨by decide, h.1, h.2.1, h.2.2.2 rfl rfl⟩

/-- C3: for every logged request, severity and message are chosen from the
final status code by the fixed precedence table — recovered panic always
error/"panic recover", then thresholds 500/400/300/200/100, otherwise
warn/"unknown status" — i.e. the code's `switch` coincides with the
specification table, and every emitted record is classified by it. -/
theorem mw_classification (reqIdHeader : String)
    (filter : Option (RespWriter → Request → Bool)) (handler : Handler)
    (genId : String) (elapsedNs : Nat) (stack : List Char)
    (w : RespWriter) (r : Request)
    (hf : filterPass filter w r = false) :
    (∀ p s, classify p s = specClassify p s) ∧
    ∀ logRec ∈ (runMiddleware reqIdHeader filter handler genId elapsedNs stack w r).records,
      (logRec.level, logRec.message)
        = specClassify handler.panics.isSome logRec.fields.StatusCode := by
  refine ⟨fun p s => rfl, ?_⟩
  rcases hp : handler.panics with _ | pv
  · simp [runMiddleware, hf, fullRun, deferRecover, hp, classify, specClassify]
  · cases pv <;>
      simp [runMiddleware, hf, fullRun, deferRecover, hp, classify, specClassify]

/-- Witness for C3: a 201 handler is logged info/"success"; the table gives
the claim's other examples (404, 301, 0) directly. -/
theorem mw_classification_witness :
    specClassify false 404 = (.error, "client error") ∧
    specClassify false 301 = (.warn, "redirect") ∧
    specClassify false 0 = (.warn, "unknown status") ∧
    ((runMiddleware RequestIDHeader none
      { actions := [.writeHeader 201], readsBody := false, panics := none }
      "gid" 7 ['s'] sampleWriter sampleRequest).records.map
        (fun lr => (lr.level, lr.message))) = [(Level.info, "success")] ∧
    ∀ logRec ∈ (runMiddleware RequestIDHeader none
        { actions := [.writeHeader 201], readsBody := false, panics := none }
        "gid" 7 ['s'] sampleWriter sampleRequest).records,
      (logRec.level, logRec.message)
        = specClassify false logRec.fields.StatusCode := by
  refine ⟨by decide, by decide, by decide, by decide, ?_⟩
  exact (mw_classification RequestIDHeader none
    { actions := [.writeHeader 201], readsBody := false, panics := none }
    "gid" 7 ['s'] sampleWriter sampleRequest rfl).2

theorem headerGet_set (hs : Headers) (k v : String) :
    headerGet (headerSet hs k v) k = v := by
  simp [headerGet, headerSet, List.lookup]

/-- C4: if the request carries a non-empty value in the configured
correlation header, the token used for logging is that inbound value
verbatim; otherwise the (non-empty) freshly generated token is written into
the request's header before the handler runs, and every emitted record's
request id equals that token. -/
theorem mw_request_id (reqIdHeader : String)
    (filter : Option (RespWriter → Request → Bool)) (handler : Handler)
    (genId : String) (elapsedNs : Nat) (stack : List Char)
    (w : RespWriter) (r : Request)
    (hf : filterPass filter w r = false) (hg : genId ≠ "") :
    (headerGet r.headers reqIdHeader ≠ "" →
      ∀ logRec ∈ (runMiddleware reqIdHeader filter handler genId elapsedNs stack w r).records,
        logRec.requestId = headerGet r.headers reqIdHeader) ∧
    (headerGet r.headers reqIdHeader = "" →
      headerGet (runMiddleware reqIdHeader filter handler genId elapsedNs stack w r).request.headers
        reqIdHeader = genId ∧
      genId ≠ "" ∧
      ∀ logRec ∈ (runMiddleware reqIdHeader filter handler genId elapsedNs stack w r).records,
        logRec.requestId = genId) := by
  by_cases hin : headerGet r.headers reqIdHeader = ""
  · refine ⟨fun hne => absurd hin hne, fun _ => ?_⟩
    refine ⟨?_, hg, ?_⟩ <;>
      rcases hb : r.body with _ | bs <;>
        rcases hp : handler.panics with _ | (_ | m | s) <;>
          simp [runMiddleware, hf, fullRun, deferRecover, hp, hb, hin, headerGet_set]
  · refine ⟨fun _ => ?_, fun he => absurd he hin⟩
    rcases hb : r.body with _ | bs <;>
      rcases hp : handler.panics with _ | (_ | m | s) <;>
        simp [runMiddleware, hf, fullRun, deferRecover, hp, hb, hin]

/-- Witness for C4 at a request with no inbound correlation header. -/
theorem mw_request_id_witness :
    headerGet sampleRequest.headers RequestIDHeader = "" ∧
    ("gid" : String) ≠ "" ∧
    headerGet (runMiddleware RequestIDHeader none
      { actions := [.writeHeader 204], readsBody := false, panics := none }
      "gid" 7 ['s'] sampleWriter sampleRequest).request.headers RequestIDHeader = "gid" ∧
    ∀ logRec ∈ (runMiddleware RequestIDHeader none
        { actions := [.writeHeader 204], readsBody := false, panics := none }
        "gid" 7 ['s'] sampleWriter sampleRequest).records,
      logRec.requestId = "gid" := by
  have h := (mw_request_id RequestIDHeader none
    { actions := [.writeHeader 204], readsBody := false, panics := none }
    "gid" 7 ['s'] sampleWriter sampleRequest rfl (by decide)).2 rfl
  exact ⟨rfl, by decide, h.1, h.2.2⟩

/-- C5: round-trip of the body snapshot — on the logged path the handler
receives a body stream with byte-for-byte the content the client sent,
whether or not the middleware consumed it for logging; a request with no
body reaches the handler with no body. -/
theorem mw_body_roundtrip (reqIdHeader : String)
    (filter : Option (RespWriter → Request → Bool)) (handler : Handler)
    (genId : String) (elapsedNs : Nat) (stack : List Char)
    (w : RespWriter) (r : Request)
    (hf : filterPass filter w r = false) :
    (runMiddleware reqIdHeader filter handler genId elapsedNs stack w r).request.body
      = r.body ∧
    (handler.readsBody = true →
      (runMiddleware reqIdHeader filter handler genId elapsedNs stack w r).handlerBodyRead
        = some ((r.body).getD [])) ∧
    (r.body = none →
      (runMiddleware reqIdHeader filter handler genId elapsedNs stack w r).request.body
        = none) := by
  by_cases hin : headerGet r.headers reqIdHeader = "" <;>
    rcases hb : r.body with _ | bs <;>
      refine ⟨?_, fun hr => ?_, fun hn => ?_⟩ <;>
        simp_all [runMiddleware, fullRun]

/-- Witness for C5 at a request with a concrete two-byte body. -/
theorem mw_body_roundtrip_witness :
    (runMiddleware RequestIDHeader none
      { actions := [], readsBody := true, panics := none }
      "gid" 7 ['s'] sampleWriter
      { sampleRequest with body := some ['h', 'i'] }).request.body
        = some ['h', 'i'] ∧
    (runMiddleware RequestIDHeader none
      { actions := [], readsBody := true, panics := none }
      "gid" 7 ['s'] sampleWriter
      { sampleRequest with body := some ['h', 'i'] }).handlerBodyRead
        = some ['h', 'i'] := by
  have h := mw_body_roundtrip RequestIDHeader none
    { actions := [], readsBody := true, panics := none }
    "gid" 7 ['s'] sampleWriter
    { sampleRequest with body := some ['h', 'i'] } rfl
  exact ⟨h.1, h.2.1 rfl⟩


/-- C6 counterexample: `[1, 2]` is a valid JSON value but not a JSON
object, so `json.Unmarshal` into a map fails and `formatReqBody` logs it
raw — whitespace intact — not compacted as the claim asserts for every
valid-JSON body. -/
theorem formatReqBody_valid_json_cex :
    validJsonValue (strBytes "[1, 2]") = true ∧
    formatReqBody (strBytes "[1, 2]") = ("[1, 2]", false) ∧
    stripWsAux false false (strBytes "[1, 2]") = strBytes "[1,2]" ∧
    ("[1, 2]" : String) ≠ "[1,2]" :=
  ⟨by decide, by decide, by decide, by decide⟩

/-- C6 (amended): a body that parses as a JSON object (or the literal
`null`) is logged compacted — insignificant whitespace removed, byte
order and hence key order preserved; every other body, including valid
JSON whose top level is not an object, is logged as raw text unchanged.
The compaction-failure branch (empty body field plus a separate non-fatal
record) exists in the code but is unreachable: compaction succeeds on
every body `Unmarshal` accepted, so the secondary record is never
emitted. -/
theorem formatReqBody_spec (data : List Char) :
    (unmarshalMapOk data = true →
      formatReqBody data = (⟨stripWsAux false false data⟩, false)) ∧
    (unmarshalMapOk data = false →
      formatReqBody data = (⟨data⟩, false)) ∧
    (formatReqBody data).2 = false := by
  by_cases h : unmarshalMapOk data = true
  · have hv := unmarshalMapOk_valid h
    simp [formatReqBody, h, jsonCompact, hv]
  · simp at h
    simp [formatReqBody, h]

/-- Witness for C6 (amended) at a concrete JSON-object body. -/
theorem formatReqBody_spec_witness :
    unmarshalMapOk (strBytes "\x7b \"a\" : 1 \x7d") = true ∧
    formatReqBody (strBytes "\x7b \"a\" : 1 \x7d")
      = (⟨stripWsAux false false (strBytes "\x7b \"a\" : 1 \x7d")⟩, false) ∧
    formatReqBody (strBytes "\x7b \"a\" : 1 \x7d")
      = ("\x7b\"a\":1\x7d", false) :=
  ⟨by decide, (formatReqBody_spec _).1 (by decide), by decide⟩

/-- C7: when the filter predicate is present and returns true, the
middleware invokes the next handler directly on the raw writer and does
nothing else — the request is passed untouched (no id resolved or
injected, no body consumed), the writer is not wrapped, and no record is
emitted (a handler panic even propagates unrecovered). -/
theorem mw_filtered (reqIdHeader : String) (handler : Handler)
    (genId : String) (elapsedNs : Nat) (stack : List Char)
    (w : RespWriter) (r : Request)
    (f : RespWriter → Request → Bool) (ht : f w r = true) :
    runMiddleware reqIdHeader (some f) handler genId elapsedNs stack w r
      = { writer := runPlain w handler.actions
          request := r
          handlerBodyRead :=
            if handler.readsBody then some ((r.body).getD []) else none
          records := []
          compactFailLogged := false
          propagated := handler.panics } := by
  simp [runMiddleware, filterPass, ht, filteredRun]

/-- Witness for C7 with a concrete always-true filter. -/
theorem mw_filtered_witness :
    (fun (_ : RespWriter) (r : Request) => r.path = "/ping") sampleWriter sampleRequest = true ∧
    runMiddleware RequestIDHeader
      (some (fun _ r => r.path = "/ping"))
      { actions := [.write ['o', 'k']], readsBody := false, panics := none }
      "gid" 7 ['s'] sampleWriter sampleRequest
      = { writer := runPlain sampleWriter [.write ['o', 'k']]
          request := sampleRequest
          handlerBodyRead := none
          records := []
          compactFailLogged := false
          propagated := none } := by
  refine ⟨by decide, ?_⟩
  exact mw_filtered RequestIDHeader
    { actions := [.write ['o', 'k']], readsBody := false, panics := none }
    "gid" 7 ['s'] sampleWriter sampleRequest
    (fun _ r => r.path = "/ping") (by decide)

/-- C8 counterexample: after an elapsed wall-clock time of 1.5 seconds
(1500000000 ns) the emitted record's latency is 1500 — the code computes
`float64(ns/1e4)/100`, i.e. elapsed milliseconds — while the claim's
seconds-rounded-to-two-decimals reading requires 1.50. -/
theorem mw_latency_cex :
    ((runMiddleware RequestIDHeader none
      { actions := [.writeHeader 200], readsBody := false, panics := none }
      "gid" 1500000000 ['s'] sampleWriter sampleRequest).records.map
        (fun lr => lr.fields.Latency)) = [(1500 : ℚ)] ∧
    specLatencySeconds 1500000000 = 3 / 2 ∧
    (1500 : ℚ) ≠ 3 / 2 := by
  refine ⟨?_, ?_, by norm_num⟩
  · simp [runMiddleware, filterPass, fullRun, deferRecover, latencyOf]
    norm_num
  have h1 : ((1500000000 : ℚ) / 1000000000 * 100) = ((150 : ℤ) : ℚ) := by norm_num
  rw [specLatencySeconds]
  push_cast
  rw [h1, round_intCast]
  norm_num

/-- C8 (amended): for every logged request the latency field equals the
elapsed nanoseconds divided by 10^4 with integer division, then divided by
100 — that is, elapsed wall-clock milliseconds truncated to a fixed
sub-second precision of two decimal digits (10-microsecond resolution),
not seconds — and it is non-negative. -/
theorem mw_latency (reqIdHeader : String)
    (filter : Option (RespWriter → Request → Bool)) (handler : Handler)
    (genId : String) (elapsedNs : Nat) (stack : List Char)
    (w : RespWriter) (r : Request)
    (hf : filterPass filter w r = false) :
    ∀ logRec ∈ (runMiddleware reqIdHeader filter handler genId elapsedNs stack w r).records,
      logRec.fields.Latency = latencyOf elapsedNs ∧
      latencyOf elapsedNs = ((elapsedNs / 10000 : Nat) : ℚ) / 100 ∧
      0 ≤ logRec.fields.Latency := by
  have hnn : (0 : ℚ) ≤ latencyOf elapsedNs := by
    rw [latencyOf]
    positivity
  rcases hp : handler.panics with _ | (_ | m | s) <;>
    simp [runMiddleware, hf, fullRun, deferRecover, hp, latencyOf, hnn] <;>
      positivity

/-- Witness for C8 (amended) at a concrete elapsed time of 12345678 ns. -/
theorem mw_latency_witness :
    latencyOf 12345678 = ((12345678 / 10000 : Nat) : ℚ) / 100 ∧
    ∀ logRec ∈ (runMiddleware RequestIDHeader none
        { actions := [.writeHeader 200], readsBody := false, panics := none }
        "gid" 12345678 ['s'] sampleWriter sampleRequest).records,
      logRec.fields.Latency = latencyOf 12345678 ∧
      0 ≤ logRec.fields.Latency := by
  refine ⟨rfl, fun lr hlr => ?_⟩
  have h := mw_latency RequestIDHeader none
    { actions := [.writeHeader 200], readsBody := false, panics := none }
    "gid" 12345678 ['s'] sampleWriter sampleRequest rfl lr hlr
  exact ⟨h.1, h.2.2⟩

/-- C9 counterexample: a handler that completes normally without ever
writing to the response is logged with status_code 0 — not the 200 the
claim asserts for a handler that never explicitly set a status. -/
theorem mw_status_default_cex :
    ((runMiddleware RequestIDHeader none
      { actions := [], readsBody := false, panics := none }
      "gid" 7 ['s'] sampleWriter sampleRequest).records.map
        (fun lr => lr.fields.StatusCode)) = [0] ∧
    (0 : Nat) ≠ 200 := ⟨by decide, by decide⟩

/-- C9 (amended): the response observer wraps the sink transparently and,
after the handler returns, exposes the code of the handler's first write:
the logged status_code equals the first explicitly set code; it defaults
to 200 only when the handler's first writer call is a body write with no
status set; a handler that never writes at all leaves status_code 0. -/
theorem mw_status_observer (reqIdHeader : String)
    (filter : Option (RespWriter → Request → Bool)) (handler : Handler)
    (genId : String) (elapsedNs : Nat) (stack : List Char)
    (w : RespWriter) (r : Request)
    (hf : filterPass filter w r = false) :
    ∀ logRec ∈ (runMiddleware reqIdHeader filter handler genId elapsedNs stack w r).records,
      logRec.fields.StatusCode = firstStatus handler.actions ∧
      (∀ d rest, handler.actions = .write d :: rest →
        logRec.fields.StatusCode = 200) ∧
      (handler.actions = [] → logRec.fields.StatusCode = 0) := by
  rcases hp : handler.panics with _ | (_ | m | s) <;>
    simp [runMiddleware, hf, fullRun, deferRecover, hp, WrapWriter.status,
      runWrap_fresh_code] <;>
    exact ⟨fun d rest hdr => by simp [hdr, firstStatus],
      fun ha => by simp [ha, firstStatus]⟩

/-- Witness for C9 (amended): a handler whose only action is a body write
is logged with the implicit status 200. -/
theorem mw_status_observer_witness :
    firstStatus [HAction.write ['o', 'k']] = 200 ∧
    ∀ logRec ∈ (runMiddleware RequestIDHeader none
        { actions := [.write ['o', 'k']], readsBody := false, panics := none }
        "gid" 7 ['s'] sampleWriter sampleRequest).records,
      logRec.fields.StatusCode = firstStatus [HAction.write ['o', 'k']] := by
  refine ⟨by decide, fun lr hlr => ?_⟩
  exact (mw_status_observer RequestIDHeader none
    { actions := [.write ['o', 'k']], readsBody := false, panics := none }
    "gid" 7 ['s'] sampleWriter sampleRequest rfl lr hlr).1

/-- C10: on a recovered non-abort panic the forced 500 is written to the
original unwrapped writer — not through the status-observing wrapper — so
the logged status_code is whatever the handler had written through the
wrapper before panicking (0 if it wrote nothing) and can differ from the
500 the client receives. -/
theorem mw_panic_status_split (reqIdHeader : String)
    (filter : Option (RespWriter → Request → Bool)) (handler : Handler)
    (genId : String) (elapsedNs : Nat) (stack : List Char)
    (w : RespWriter) (r : Request)
    (hf : filterPass filter w r = false)
    (pv : PanicVal) (hp : handler.panics = some pv)
    (hna : pv ≠ .abortHandler) :
    (runMiddleware reqIdHeader filter handler genId elapsedNs stack w r).writer
      = ((runWrap { underlying := w, code := 0, wroteHeader := false }
           handler.actions).underlying).writeHeader 500 ∧
    (∀ logRec ∈ (runMiddleware reqIdHeader filter handler genId elapsedNs stack w r).records,
      logRec.fields.StatusCode = firstStatus handler.actions) ∧
    (handler.actions = [] → w.status = none →
      (runMiddleware reqIdHeader filter handler genId elapsedNs stack w r).writer.status
          = some 500 ∧
      ∀ logRec ∈ (runMiddleware reqIdHeader filter handler genId elapsedNs stack w r).records,
        logRec.fields.StatusCode = 0) := by
  cases pv with
  | abortHandler => exact absurd rfl hna
  | errVal m =>
    refine ⟨?_, ?_, fun ha hw => ⟨?_, ?_⟩⟩
    · simp [runMiddleware, hf, fullRun, deferRecover, hp]
    · simp [runMiddleware, hf, fullRun, deferRecover, hp, WrapWriter.status,
        runWrap_fresh_code]
    · simp [runMiddleware, hf, fullRun, deferRecover, hp, ha, hw, runWrap,
        RespWriter.writeHeader]
    · simp [runMiddleware, hf, fullRun, deferRecover, hp, WrapWriter.status,
        ha, runWrap]
  | otherVal s =>
    refine ⟨?_, ?_, fun ha hw => ⟨?_, ?_⟩⟩
    · simp [runMiddleware, hf, fullRun, deferRecover, hp]
    · simp [runMiddleware, hf, fullRun, deferRecover, hp, WrapWriter.status,
        runWrap_fresh_code]
    · simp [runMiddleware, hf, fullRun, deferRecover, hp, ha, hw, runWrap,
        RespWriter.writeHeader]
    · simp [runMiddleware, hf, fullRun, deferRecover, hp, WrapWriter.status,
        ha, runWrap]

/-- Witness for C10: a handler that panics before writing anything — the
client receives 500 while the record logs status_code 0. -/
theorem mw_panic_status_split_witness :
    (runMiddleware RequestIDHeader none
      { actions := [], readsBody := false, panics := some (.otherVal "42") }
      "gid" 7 ['s'] sampleWriter sampleRequest).writer.status = some 500 ∧
    ∀ logRec ∈ (runMiddleware RequestIDHeader none
        { actions := [], readsBody := false, panics := some (.otherVal "42") }
        "gid" 7 ['s'] sampleWriter sampleRequest).records,
      logRec.fields.StatusCode = 0 := by
  have h := (mw_panic_status_split RequestIDHeader none
    { actions := [], readsBody := false, panics := some (.otherVal "42") }
    "gid" 7 ['s'] sampleWriter sampleRequest rfl (.otherVal "42") rfl
    (by decide)).2.2 rfl rfl
  exact h
